import Mathlib

/-!
Verification development for the Pulse repository (event ingestion,
rolling-window metrics, TTL-cached context building, two-phase priority
scoring, feedback recording, and the waitlist subscription route).

The SQL schema is embedded from `db/migrations/0001_init.sql` (inside
`003_create_feedback_table.sql`), `0002_ingest_cursors.sql` and
`0003_journey_tracking.sql`.  The waitlist handler is embedded from the
Next.js route (`src/unnamed/part_001` / `part_002`).  The Python backend
modules (`api/metrics.py`, `api/priority_engine.py`, `api/context_builder.py`,
`api/main.py`) are not present in the repository snapshot; definitions for
them are modelled from the specification and from `CLAUDE.md`, and each such
definition says so in its doc comment.
-/

/-! ## Event store -/

/-- Row of the `events` table from migration `0001_init.sql`:
`(id, ts, source, actor, type, ref_id, title, url, meta)` with
`UNIQUE(source, ref_id, type, ts)`.  Timestamps are seconds as `Int`;
the JSONB `meta` blob is kept opaque as a `String`.  The surrogate `id`
column is omitted: it carries no constraint relevant here. -/
structure Event where
  ts : Int
  source : String
  actor : Option String
  type : String
  ref_id : String
  title : Option String
  url : Option String
  meta : String
deriving DecidableEq, Repr

/-- The uniqueness key `(source, ref_id, type, ts)` declared by the
`UNIQUE` constraint of the `events` table. -/
def eventKey (e : Event) : String × String × String × Int :=
  (e.source, e.ref_id, e.type, e.ts)

/-- Bool test: some stored row already carries this uniqueness key. -/
def hasKey (store : List Event) (k : String × String × String × Int) : Bool :=
  store.any fun x => decide (eventKey x = k)

/-- Modelled from the spec: the per-row effect of the Event Store's
`INSERT ... ON CONFLICT DO NOTHING` (the `db.py` insert helper is absent
from the snapshot; `CLAUDE.md` documents `ON CONFLICT DO NOTHING` over
`(source, ref_id, type, ts)`).  A conflicting row is silently skipped. -/
def insertOne (store : List Event) (e : Event) : List Event × Nat :=
  if hasKey store (eventKey e) then (store, 0) else (store ++ [e], 1)

/-- Modelled from the spec: `insert_batch(events) -> count_inserted` with set
semantics on the uniqueness key; conflicting rows are skipped, not errors. -/
def insert_batch : List Event → List Event → List Event × Nat
  | store, [] => (store, 0)
  | store, e :: rest =>
    let r := insertOne store e
    let r2 := insert_batch r.1 rest
    (r2.1, r.2 + r2.2)

/-! ## Metrics aggregator -/

/-- Result of the window-metrics computation, after the fields documented in
`CLAUDE.md` for `compute_48h_metrics()` in `api/metrics.py`:
opened/merged PR counts, tickets moved, tickets blocked, and the
average-review-hours value (a documented stub, always zero). -/
structure MetricsSnapshot where
  prs_open : Nat
  prs_merged : Nat
  tickets_moved : Nat
  tickets_blocked : Nat
  avg_review_hours : Rat
deriving DecidableEq, Repr

/-- Membership condition of the rolling window, from the spec:
window-inclusive at the boundary, `timestamp >= now - window_hours`
(timestamps in seconds, window in hours). -/
def in_window (now window_hours : Int) (e : Event) : Bool :=
  decide (now - window_hours * 3600 ≤ e.ts)

/-- Modelled from the spec: `compute_window_metrics(events, window_hours)`
(`api/metrics.py` is absent from the snapshot).  Events inside the window
are counted per documented type; `avg_review_hours` is the documented stub,
always zero. -/
def compute_window_metrics (events : List Event) (now window_hours : Int) :
    MetricsSnapshot :=
  let ws := events.filter (in_window now window_hours)
  { prs_open :=
      (ws.filter fun e =>
        e.source == "github" && e.type == "PullRequestEvent_opened").length
    prs_merged :=
      (ws.filter fun e =>
        e.source == "github" && e.type == "PullRequestEvent_merged").length
    tickets_moved :=
      (ws.filter fun e =>
        e.source == "linear" &&
          (e.type == "ISSUE_CREATED" || e.type == "ISSUE_STATE_CHANGED")).length
    tickets_blocked :=
      (ws.filter fun e =>
        e.source == "linear" && e.type == "ISSUE_BLOCKED").length
    avg_review_hours := 0 }

/-! ## Context cache and context builder -/

/-- Row of the `context_cache` table from migration `0003_journey_tracking.sql`:
`(key TEXT PRIMARY KEY, data JSONB, expires_at TIMESTAMPTZ, created_at)`.
The cached `data` here is the metrics snapshot the Context Builder stores. -/
structure CacheEntry where
  key : String
  data : MetricsSnapshot
  expires_at : Int
deriving DecidableEq, Repr

/-- Modelled from the spec: cache read.  An entry is served only while the
read time is before its `expires_at`; entries past `expires_at` are treated
as absent, never served (`api/context_builder.py` is absent from the
snapshot). -/
def cache_get (c : List CacheEntry) (k : String) (now : Int) :
    Option MetricsSnapshot :=
  match c.find? (fun e => e.key == k) with
  | some e => if now < e.expires_at then some e.data else none
  | none => none

/-- Modelled from the spec: key-scoped cache write (last writer wins for a
key; other keys untouched). -/
def cache_put (c : List CacheEntry) (k : String) (d : MetricsSnapshot)
    (exp : Int) : List CacheEntry :=
  { key := k, data := d, expires_at := exp } :: c.filter fun e => e.key != k

/-- Design-default TTL of the context cache, 5 minutes, in seconds. -/
def TTL : Int := 5 * 60

/-- Cache plus a call-count spy on the Metrics Aggregator, matching the
spec's "verifiable via a call-count spy on the Metrics Aggregator". -/
structure BuildState where
  cache : List CacheEntry
  aggCalls : Nat
deriving DecidableEq, Repr

/-- Modelled from the spec: step (2) of `build_context` — consult the cache
first, invoke the Metrics Aggregator (`compute`) only on a miss or expiry,
then write the fresh result back with the fixed TTL
(`api/context_builder.py` is absent from the snapshot). -/
def build_metrics (compute : Int → MetricsSnapshot) (st : BuildState)
    (k : String) (now : Int) : MetricsSnapshot × BuildState :=
  match cache_get st.cache k now with
  | some m => (m, st)
  | none =>
    let m := compute now
    (m, { cache := cache_put st.cache k m (now + TTL)
          aggCalls := st.aggCalls + 1 })

/-! ## Journey state -/

/-- Row of the `user_journey` table from migration `0003_journey_tracking.sql`.
The UUID primary key is modelled as `Nat`; the JSONB documents
(`desired_state`, `current_state`, `preferences`) are opaque strings, all
NOT NULL (enforced here by the types); `context_history` carries no
constraint and is omitted. -/
structure JourneyRow where
  id : Nat
  desired_state : String
  current_state : String
  preferences : String
  is_active : Bool
deriving DecidableEq, Repr

/-- The row constraints the migration actually declares on `user_journey`:
primary-key uniqueness on `id`.  `idx_user_journey_active` is a plain
(non-unique) partial index — `CREATE INDEX ... WHERE is_active = true` —
so it contributes no row constraint. -/
def user_journey_constraints (t : List JourneyRow) : Prop :=
  (t.map JourneyRow.id).Nodup

instance (t : List JourneyRow) : Decidable (user_journey_constraints t) := by
  unfold user_journey_constraints; infer_instance

/-- The rows currently flagged active. -/
def activeRows (t : List JourneyRow) : List JourneyRow :=
  t.filter fun r => r.is_active

/-- Statement taken from the spec's words (for comparison with the embedded
DDL): the storage layer enforces that every state satisfying its declared
constraints has at most one active Journey State record. -/
def spec_single_active_enforced : Prop :=
  ∀ t : List JourneyRow, user_journey_constraints t → (activeRows t).length ≤ 1

/-- A concrete `user_journey` table state holding two active rows with
distinct primary keys. -/
def twoActiveTable : List JourneyRow :=
  [ { id := 0, desired_state := "ds0", current_state := "cs0",
      preferences := "p0", is_active := true }
  , { id := 1, desired_state := "ds1", current_state := "cs1",
      preferences := "p1", is_active := true } ]

/-! ## Feedback loop -/

/-- Row of the `priority_recommendations` table from migration
`0003_journey_tracking.sql`, restricted to the columns the Feedback Loop
fills: `action_taken`, `outcome`, `feedback_score`, `time_to_complete`.
The UUID primary key is modelled as `Nat`; `feedback_score` is the nullable
`INT` column carrying `CHECK (feedback_score BETWEEN -1 AND 1)`. -/
structure PriorityRecRow where
  id : Nat
  action_taken : Option String
  outcome : Option String
  feedback_score : Option Int
  time_to_complete : Option Int
deriving DecidableEq, Repr

/-- Feedback submission payload, after the spec's
`record_feedback(recommendation_id, feedback_data)` fields. -/
structure FeedbackPayload where
  action_taken : Option String
  outcome : Option String
  feedback_score : Option Int
  time_to_complete : Option Int
deriving DecidableEq, Repr

/-- The `CHECK (feedback_score BETWEEN -1 AND 1)` constraint of
`priority_recommendations` (SQL `CHECK` passes on NULL). -/
def feedback_score_ok : Option Int → Bool
  | none => true
  | some s => decide (-1 ≤ s) && decide (s ≤ 1)

/-- Overwrite of the feedback columns of one row (wholesale, not merged). -/
def applyFeedback (p : FeedbackPayload) (r : PriorityRecRow) : PriorityRecRow :=
  { r with action_taken := p.action_taken, outcome := p.outcome,
           feedback_score := p.feedback_score,
           time_to_complete := p.time_to_complete }

/-- Modelled from the spec: `record_feedback` — a `feedback_score` outside
the `CHECK` range is rejected with a specific error; otherwise the feedback
columns of the addressed recommendation are overwritten, last write wins
(the `/priority/feedback` handler in `api/main.py` is absent from the
snapshot; the `CHECK` itself is embedded from the DDL). -/
def record_feedback (table : List PriorityRecRow) (rid : Nat)
    (p : FeedbackPayload) : Except String (List PriorityRecRow) :=
  if feedback_score_ok p.feedback_score then
    Except.ok (table.map fun r => if r.id = rid then applyFeedback p r else r)
  else
    Except.error "invalid feedback_score"

/-! ## Scoring and reasoning engine -/

/-- Candidate action of Phase A, after the spec: four scalar factors in
`[0, 1]` and a creation index used for deterministic tie-breaking
("ties break by earliest-created candidate"). -/
structure Candidate where
  action : String
  created : Nat
  urgency : Rat
  impact : Rat
  momentum : Rat
  energy : Rat
deriving DecidableEq, Repr

/-- Factor-weight configuration recognized by the spec:
`urgency_weight, impact_weight, momentum_weight, energy_weight`. -/
structure Weights where
  urgency_weight : Rat
  impact_weight : Rat
  momentum_weight : Rat
  energy_weight : Rat
deriving DecidableEq, Repr

/-- Modelled from the spec: the composite score is the fixed weighted sum of
the four factors (`api/priority_engine.py` is absent from the snapshot). -/
def composite (w : Weights) (c : Candidate) : Rat :=
  w.urgency_weight * c.urgency + w.impact_weight * c.impact +
    w.momentum_weight * c.momentum + w.energy_weight * c.energy

/-- Ranking order of Phase A: higher composite score first; on equal scores,
the earlier-created candidate first. -/
def rankLE (w : Weights) (a b : Candidate) : Prop :=
  composite w b < composite w a ∨
    (composite w a = composite w b ∧ a.created ≤ b.created)

instance (w : Weights) : DecidableRel (rankLE w) := fun a b => by
  unfold rankLE; infer_instance

instance (w : Weights) : IsTotal Candidate (rankLE w) where
  total a b := by
    unfold rankLE
    rcases lt_trichotomy (composite w a) (composite w b) with h | h | h
    · exact Or.inr (Or.inl h)
    · rcases Nat.le_total a.created b.created with hc | hc
      · exact Or.inl (Or.inr ⟨h, hc⟩)
      · exact Or.inr (Or.inr ⟨h.symm, hc⟩)
    · exact Or.inl (Or.inl h)

instance (w : Weights) : IsTrans Candidate (rankLE w) where
  trans a b c hab hbc := by
    unfold rankLE at *
    rcases hab with h1 | ⟨h1, h1c⟩ <;> rcases hbc with h2 | ⟨h2, h2c⟩
    · exact Or.inl (h2.trans h1)
    · exact Or.inl (h2 ▸ h1)
    · exact Or.inl (h1 ▸ h2)
    · exact Or.inr ⟨h1.trans h2, h1c.trans h2c⟩

/-- Modelled from the spec: Phase-A ranking — sort the candidates by
composite score, descending, stably, with ties broken by the
earliest-created candidate. -/
def rankCandidates (w : Weights) (cs : List Candidate) : List Candidate :=
  List.insertionSort (rankLE w) cs

/-- Modelled from the spec: Phase A — the highest-composite candidate becomes
`primary_action`, the next K (default 3) become `alternatives`. -/
def phaseA (w : Weights) (cs : List Candidate) :
    Option Candidate × List Candidate :=
  let ranked := rankCandidates w cs
  (ranked.head?, ranked.tail.take 3)

/-- Outcome of the optional Phase-B reasoning call: timeout, malformed
response, circuit breaker open, or a successful refinement carrying a
re-ordering of the selected candidates and a narrative. -/
inductive PhaseBOutcome where
  | timeout : PhaseBOutcome
  | malformed : PhaseBOutcome
  | breakerOpen : PhaseBOutcome
  | refined : List Candidate → String → PhaseBOutcome
deriving DecidableEq, Repr

/-- Emitted recommendation fields the claims are about: the primary action,
the ordered alternatives, and `debug_info.ai_reasoning_used`. -/
structure RecommendationOut where
  primary_action : Option Candidate
  alternatives : List Candidate
  ai_reasoning_used : Bool
deriving DecidableEq, Repr

/-- Bool test that two candidate lists hold exactly the same elements
(Phase B may only re-rank within the already-selected candidate set). -/
def sameElems (a b : List Candidate) : Bool :=
  a.length == b.length && a.all (· ∈ b) && b.all (· ∈ a)

/-- Modelled from the spec: `generate_recommendation` — Phase A always runs;
`phaseB = none` means Phase B is disabled; on timeout, malformed response,
or open breaker the Phase-A result is returned verbatim with
`ai_reasoning_used = false`; a successful refinement may only re-order the
already-selected set (`api/priority_engine.py` is absent from the
snapshot). -/
def generate_recommendation (w : Weights) (cs : List Candidate)
    (phaseB : Option PhaseBOutcome) : RecommendationOut :=
  let pa := phaseA w cs
  match phaseB with
  | none => { primary_action := pa.1, alternatives := pa.2,
              ai_reasoning_used := false }
  | some PhaseBOutcome.timeout =>
      { primary_action := pa.1, alternatives := pa.2,
        ai_reasoning_used := false }
  | some PhaseBOutcome.malformed =>
      { primary_action := pa.1, alternatives := pa.2,
        ai_reasoning_used := false }
  | some PhaseBOutcome.breakerOpen =>
      { primary_action := pa.1, alternatives := pa.2,
        ai_reasoning_used := false }
  | some (PhaseBOutcome.refined reordered _) =>
      if sameElems reordered (pa.1.toList ++ pa.2) then
        { primary_action := reordered.head?,
          alternatives := reordered.tail.take 3, ai_reasoning_used := true }
      else
        { primary_action := pa.1, alternatives := pa.2,
          ai_reasoning_used := false }

/-! ## Waitlist subscription route

Embedded from the Next.js route handler in `src/unnamed/part_001` (and its
variant with a notification email in `src/unnamed/part_002`; the email send
is wrapped in its own try/catch and never changes the Redis state or the
response, so one embedding covers both). -/

/-- Value stored under the per-email key: the object
`(email, subscribedAt)` written by `redis.set`. -/
structure SubRecord where
  email : String
  subscribedAt : String
deriving DecidableEq, Repr

/-- Redis state touched by the route: the per-email keys and the
`waitlist:emails` list (`lpush` prepends, newest first).  `redis.set` is
modelled as a shadowing insert with newest-first lookup, which is
observationally equal for `get`. -/
structure WaitlistState where
  kv : List (String × SubRecord)
  emails : List String
deriving DecidableEq, Repr

/-- Response body: the handler returns either an `error` field or a
`message` field. -/
inductive RespBody where
  | errorMsg : String → RespBody
  | message : String → RespBody
deriving DecidableEq, Repr

/-- HTTP response of the handler: status code and JSON body. -/
structure ApiResponse where
  status : Nat
  body : RespBody
deriving DecidableEq, Repr

/-- The per-email key, from the source: `waitlist:` followed by the email. -/
def waitlistKey (email : String) : String :=
  "waitlist:" ++ email

/-- The source's `email.includes("@")` test, over the string's characters. -/
def includesAt (s : String) : Bool :=
  s.data.any fun c => c == '@'

/-- The source's `redis.get(key)`. -/
def redisGet (st : WaitlistState) (k : String) : Option SubRecord :=
  (st.kv.find? fun p => p.1 == k).map Prod.snd

/-- The source's `redis.set(key, value)`. -/
def redisSet (st : WaitlistState) (k : String) (v : SubRecord) :
    WaitlistState :=
  { st with kv := (k, v) :: st.kv }

/-- The source's `redis.lpush("waitlist:emails", email)`. -/
def redisLpush (st : WaitlistState) (e : String) : WaitlistState :=
  { st with emails := e :: st.emails }

/-- The POST handler of the waitlist route, from the source: reject unless
the body has a truthy `email` containing `@` (JS `!email` is true exactly
for a missing or empty string here); answer `Already subscribed` without
writing when the per-email key exists; otherwise `set` the key, `lpush` the
email, and answer `Successfully subscribed`. -/
def subscribePOST (st : WaitlistState) (email : Option String)
    (timestamp : String) : ApiResponse × WaitlistState :=
  match email with
  | none => ({ status := 400, body := RespBody.errorMsg "Valid email required" }, st)
  | some s =>
    if s.data.isEmpty || !includesAt s then
      ({ status := 400, body := RespBody.errorMsg "Valid email required" }, st)
    else
      match redisGet st (waitlistKey s) with
      | some _ =>
        ({ status := 200, body := RespBody.message "Already subscribed" }, st)
      | none =>
        let st1 := redisSet st (waitlistKey s) { email := s, subscribedAt := timestamp }
        let st2 := redisLpush st1 s
        ({ status := 200, body := RespBody.message "Successfully subscribed" }, st2)

/-- Invariant of the waitlist state: the `waitlist:emails` list holds no
duplicates, and every listed email also has its per-email key set. -/
def waitlist_inv (st : WaitlistState) : Prop :=
  st.emails.Nodup ∧
    ∀ e ∈ st.emails, (redisGet st (waitlistKey e)).isSome = true

instance (st : WaitlistState) : Decidable (waitlist_inv st) := by
  unfold waitlist_inv; infer_instance

/-! ## Concrete example data used by witnesses -/

/-- A concrete github pull-request-opened event. -/
def evA : Event :=
  { ts := -48 * 3600, source := "github", actor := some "alice",
    type := "PullRequestEvent_opened", ref_id := "pr-1",
    title := some "add parser", url := none, meta := "raw-payload" }

/-- The same event one second before the 48h window boundary (t = 0). -/
def evB : Event :=
  { evA with ts := -48 * 3600 - 1 }

/-- Equal-weight configuration (the spec's default, summing to 1.0). -/
def wEx : Weights :=
  { urgency_weight := 1/4, impact_weight := 1/4,
    momentum_weight := 1/4, energy_weight := 1/4 }

/-- Candidate created first; composite score 1/4 under `wEx`. -/
def cEx : Candidate :=
  { action := "unblock ticket X", created := 0,
    urgency := 1, impact := 0, momentum := 0, energy := 0 }

/-- Candidate created second; composite score 1/4 under `wEx` as well. -/
def dEx : Candidate :=
  { action := "review PR 7", created := 1,
    urgency := 0, impact := 1, momentum := 0, energy := 0 }

/-- A waitlist state with one subscribed email. -/
def stEx : WaitlistState :=
  { kv := [("waitlist:a@b.c", { email := "a@b.c", subscribedAt := "t0" })],
    emails := ["a@b.c"] }

/-- A one-row `priority_recommendations` table with no feedback yet. -/
def recTableEx : List PriorityRecRow :=
  [{ id := 0, action_taken := none, outcome := none,
     feedback_score := none, time_to_complete := none }]

/-- A feedback payload carrying score 1. -/
def fbOne : FeedbackPayload :=
  { action_taken := some "did it", outcome := some "completed",
    feedback_score := some 1, time_to_complete := some 90 }

/-- A feedback payload carrying score -1 (a later overwrite). -/
def fbNeg : FeedbackPayload :=
  { action_taken := some "other", outcome := some "blocked",
    feedback_score := some (-1), time_to_complete := none }

/-- A feedback payload carrying the out-of-range score 2. -/
def fbTwo : FeedbackPayload :=
  { action_taken := none, outcome := none,
    feedback_score := some 2, time_to_complete := none }

/-- A constant Metrics Aggregator used as the computation under the spy. -/
def mcEx : Int → MetricsSnapshot := fun _ =>
  { prs_open := 1, prs_merged := 0, tickets_moved := 0,
    tickets_blocked := 0, avg_review_hours := 0 }

/-- An empty build state: empty cache, zero aggregator calls. -/
def bst0 : BuildState := { cache := [], aggCalls := 0 }

/-- A cache entry that expired at time 5. -/
def ceEx : CacheEntry :=
  { key := "m", data := mcEx 0, expires_at := 5 }

/-! ## Lemmas on the event store -/

theorem hasKey_append (store l : List Event) (k : String × String × String × Int) :
    hasKey (store ++ l) k = (hasKey store k || hasKey l k) := by
  unfold hasKey; simp [List.any_append]

theorem hasKey_insertOne_mono {store : List Event}
    {k : String × String × String × Int} (e : Event)
    (h : hasKey store k = true) : hasKey (insertOne store e).1 k = true := by
  unfold insertOne; split
  · exact h
  · rw [hasKey_append]; simp [h]

theorem hasKey_insertOne_self (store : List Event) (e : Event) :
    hasKey (insertOne store e).1 (eventKey e) = true := by
  unfold insertOne; split
  next h => exact h
  next h => rw [hasKey_append]; unfold hasKey; simp

theorem hasKey_insert_batch_mono (b : List Event) :
    ∀ (store : List Event) (k : String × String × String × Int),
      hasKey store k = true → hasKey (insert_batch store b).1 k = true := by
  induction b with
  | nil => intro store k h; exact h
  | cons e rest ih =>
    intro store k h
    simp only [insert_batch]
    exact ih _ k (hasKey_insertOne_mono e h)

theorem hasKey_insert_batch_all (b : List Event) :
    ∀ store, ∀ e ∈ b, hasKey (insert_batch store b).1 (eventKey e) = true := by
  induction b with
  | nil => intro store e he; cases he
  | cons a rest ih =>
    intro store e he
    simp only [insert_batch]
    rcases List.mem_cons.mp he with rfl | hmem
    · exact hasKey_insert_batch_mono rest _ _ (hasKey_insertOne_self store e)
    · exact ih _ e hmem

theorem insert_batch_noop (b : List Event) :
    ∀ store, (∀ e ∈ b, hasKey store (eventKey e) = true) →
      insert_batch store b = (store, 0) := by
  induction b with
  | nil => intro store _; rfl
  | cons a rest ih =>
    intro store h
    have ha : hasKey store (eventKey a) = true := h a (List.mem_cons_self a rest)
    have hone : insertOne store a = (store, 0) := by unfold insertOne; simp [ha]
    have hrest : insert_batch store rest = (store, 0) :=
      ih store fun e he => h e (List.mem_cons_of_mem a he)
    simp only [insert_batch, hone, hrest]

/-- C1: event insertion is idempotent under the uniqueness key
`(source, external_ref_id, type, timestamp)`: re-inserting an event whose
key tuple is already stored is a no-op returning 0 and no error, and
re-running the same batch over an overlapping window inserts zero
additional events (`count_inserted = 0` on the repeat run). -/
theorem C1_insert_idempotent :
    (∀ (store : List Event) (e : Event), hasKey store (eventKey e) = true →
        insertOne store e = (store, 0)) ∧
    (∀ (store batch : List Event),
        insert_batch (insert_batch store batch).1 batch =
          ((insert_batch store batch).1, 0)) := by
  constructor
  · intro store e h; unfold insertOne; simp [h]
  · intro store batch
    exact insert_batch_noop batch _ (hasKey_insert_batch_all batch store)

/-- Witness for C1 at concrete inputs: re-inserting `evA` into a store
already holding it is a no-op, and re-running the batch `[evA, evB]` on an
empty store inserts zero events the second time. -/
theorem C1_insert_idempotent_witness :
    insertOne [evA] evA = ([evA], 0) ∧
    insert_batch (insert_batch [] [evA, evB]).1 [evA, evB] =
      ((insert_batch [] [evA, evB]).1, 0) :=
  ⟨C1_insert_idempotent.1 [evA] evA (by decide),
   C1_insert_idempotent.2 [] [evA, evB]⟩

/-- C5: `compute_window_metrics` is window-inclusive at the lower boundary —
membership is `timestamp >= now - window_hours`; an event at exactly
`now - window_hours` is counted and an event at `now - window_hours - 1s`
is excluded. -/
theorem C5_window_boundary :
    ∀ (now w : Int) (e : Event),
      (in_window now w e = true ↔ now - w * 3600 ≤ e.ts) ∧
      (e.ts = now - w * 3600 → in_window now w e = true) ∧
      (e.ts = now - w * 3600 - 1 → in_window now w e = false) ∧
      (e.source = "github" → e.type = "PullRequestEvent_opened" →
        (compute_window_metrics [e] now w).prs_open =
          if now - w * 3600 ≤ e.ts then 1 else 0) := by
  intro now w e
  refine ⟨by simp [in_window], ?_, ?_, ?_⟩
  · intro h
    simp only [in_window, decide_eq_true_eq]
    omega
  · intro h
    simp only [in_window, decide_eq_false_iff_not]
    omega
  · intro hs ht
    unfold compute_window_metrics
    by_cases hw : now - w * 3600 ≤ e.ts
    · simp [in_window, hw, hs, ht]
    · simp [in_window, hw]

/-- Witness for C5 at concrete inputs: with `now = 0` and a 48h window, the
event at exactly `-48h` is inside the window and counted, the event one
second earlier is outside. -/
theorem C5_window_boundary_witness :
    in_window 0 48 evA = true ∧ in_window 0 48 evB = false ∧
    (compute_window_metrics [evA] 0 48).prs_open = 1 := by
  refine ⟨(C5_window_boundary 0 48 evA).2.1 (by decide),
          (C5_window_boundary 0 48 evB).2.2.1 (by decide), ?_⟩
  have h := (C5_window_boundary 0 48 evA).2.2.2 (by rfl) (by rfl)
  rw [h]
  decide

/-- C6: `compute_window_metrics` on an empty event set returns all-zero
counts and the defined zero sentinel for the average-review-latency metric
(no division by an empty denominator occurs). -/
theorem C6_empty_window_safety :
    ∀ now w : Int, compute_window_metrics [] now w =
      { prs_open := 0, prs_merged := 0, tickets_moved := 0,
        tickets_blocked := 0, avg_review_hours := 0 } :=
  fun _ _ => rfl

/-! ## Lemmas on the context cache -/

theorem cache_get_put (c : List CacheEntry) (k : String)
    (d : MetricsSnapshot) (exp t : Int) :
    cache_get (cache_put c k d exp) k t = if t < exp then some d else none := by
  unfold cache_get cache_put
  simp

/-- C4: an entry read past its `expires_at` behaves as absent (the expired
value is never returned); a metrics window built twice within the TTL
returns the identical cached snapshot with no second Metrics Aggregator
call, and a request after expiry triggers recomputation (the spy count
rises again). -/
theorem C4_cache_honesty :
    (∀ (c : List CacheEntry) (k : String) (now : Int) (e : CacheEntry),
        c.find? (fun x => x.key == k) = some e → e.expires_at < now →
        cache_get c k now = none) ∧
    (∀ (compute : Int → MetricsSnapshot) (st : BuildState) (k : String)
        (t0 t1 : Int),
        cache_get st.cache k t0 = none → t0 ≤ t1 → t1 < t0 + TTL →
        build_metrics compute (build_metrics compute st k t0).2 k t1 =
          ((build_metrics compute st k t0).1,
            (build_metrics compute st k t0).2) ∧
        (build_metrics compute st k t0).2.aggCalls = st.aggCalls + 1) ∧
    (∀ (compute : Int → MetricsSnapshot) (st : BuildState) (k : String)
        (t0 t2 : Int),
        cache_get st.cache k t0 = none → t0 + TTL ≤ t2 →
        (build_metrics compute (build_metrics compute st k t0).2 k t2).1 =
          compute t2 ∧
        (build_metrics compute
            (build_metrics compute st k t0).2 k t2).2.aggCalls =
          st.aggCalls + 2) := by
  refine ⟨?_, ?_, ?_⟩
  · intro c k now e hfind hexp
    unfold cache_get
    rw [hfind]
    have : ¬ now < e.expires_at := by omega
    simp [this]
  · intro compute st k t0 t1 h0 hle hlt
    have hb : build_metrics compute st k t0 =
        (compute t0,
          { cache := cache_put st.cache k (compute t0) (t0 + TTL),
            aggCalls := st.aggCalls + 1 }) := by
      unfold build_metrics
      rw [h0]
    rw [hb]
    refine ⟨?_, rfl⟩
    unfold build_metrics
    simp only [cache_get_put, if_pos hlt]
  · intro compute st k t0 t2 h0 hexp
    have hb : build_metrics compute st k t0 =
        (compute t0,
          { cache := cache_put st.cache k (compute t0) (t0 + TTL),
            aggCalls := st.aggCalls + 1 }) := by
      unfold build_metrics
      rw [h0]
    rw [hb]
    have hnone : ¬ t2 < t0 + TTL := by omega
    constructor
    · unfold build_metrics
      simp only [cache_get_put, if_neg hnone]
    · unfold build_metrics
      simp only [cache_get_put, if_neg hnone]

/-- Witness for C4 at concrete inputs: an entry expired at time 5 is absent
at time 10; with an empty cache at `t0 = 0`, a rebuild at `t1 = 100`
(within the 300s TTL) returns the first result and state unchanged, and a
rebuild at `t2 = 400` (past the TTL) has called the aggregator twice. -/
theorem C4_cache_honesty_witness :
    cache_get [ceEx] "m" 10 = none ∧
    build_metrics mcEx (build_metrics mcEx bst0 "m" 0).2 "m" 100 =
      ((build_metrics mcEx bst0 "m" 0).1,
        (build_metrics mcEx bst0 "m" 0).2) ∧
    (build_metrics mcEx (build_metrics mcEx bst0 "m" 0).2 "m" 400).2.aggCalls = 2 :=
  ⟨C4_cache_honesty.1 [ceEx] "m" 10 ceEx (by rfl) (by decide),
   (C4_cache_honesty.2.1 mcEx bst0 "m" 0 100 (by rfl) (by decide) (by decide)).1,
   (C4_cache_honesty.2.2 mcEx bst0 "m" 0 400 (by rfl) (by decide)).2⟩

/-- C2 counterexample: the claim that the storage layer enforces at most one
active Journey State record is false for the embedded DDL —
`idx_user_journey_active` is a plain (non-unique) partial index, so the
concrete table `twoActiveTable`, holding two active rows with distinct
primary keys, satisfies every declared constraint. -/
theorem C2_single_active_not_enforced : ¬ spec_single_active_enforced := by
  intro h
  exact absurd (h twoActiveTable (by decide)) (by decide)

/-- C2 amended: the migration declares only a plain partial index on
`is_active` for active-journey lookup; the storage layer does not enforce
the single-active invariant — a state with two active rows satisfies every
declared constraint, and inserting any row with a fresh primary key
(active or not) is accepted regardless of the active rows already present. -/
theorem C2_active_rows_unconstrained :
    (user_journey_constraints twoActiveTable ∧
      (activeRows twoActiveTable).length = 2) ∧
    (∀ (t : List JourneyRow) (r : JourneyRow), user_journey_constraints t →
      r.id ∉ t.map JourneyRow.id → user_journey_constraints (r :: t)) := by
  constructor
  · exact ⟨by decide, by decide⟩
  · intro t r ht hr
    unfold user_journey_constraints at *
    simp [List.nodup_cons, ht, hr]

/-- Witness for the amended C2 at concrete inputs: inserting a third active
row with fresh id 2 into the two-active table is accepted by every declared
constraint. -/
theorem C2_active_rows_unconstrained_witness :
    user_journey_constraints
      ({ id := 2, desired_state := "d", current_state := "c",
         preferences := "p", is_active := true } :: twoActiveTable) :=
  C2_active_rows_unconstrained.2 twoActiveTable
    { id := 2, desired_state := "d", current_state := "c",
      preferences := "p", is_active := true } (by decide) (by decide)

/-- C3: `record_feedback` rejects any `feedback_score` outside the set
containing -1, 0 and 1; each in-range score is accepted and stored verbatim
on the addressed recommendation; and a second submission for the same
`recommendation_id` overwrites the prior feedback wholesale (last write
wins), never accumulating. -/
theorem C3_feedback_contract :
    (∀ s : Int, feedback_score_ok (some s) = true ↔
        (s = -1 ∨ s = 0 ∨ s = 1)) ∧
    (∀ (t : List PriorityRecRow) (rid : Nat) (p : FeedbackPayload),
        feedback_score_ok p.feedback_score = false →
        record_feedback t rid p = Except.error "invalid feedback_score") ∧
    (∀ (t : List PriorityRecRow) (rid : Nat) (p : FeedbackPayload) (s : Int),
        p.feedback_score = some s → (s = -1 ∨ s = 0 ∨ s = 1) →
        ∃ t2, record_feedback t rid p = Except.ok t2 ∧
          ∀ r ∈ t2, r.id = rid → r.feedback_score = some s) ∧
    (∀ (t : List PriorityRecRow) (rid : Nat) (p1 p2 : FeedbackPayload)
        (t1 : List PriorityRecRow),
        record_feedback t rid p1 = Except.ok t1 →
        record_feedback t1 rid p2 = record_feedback t rid p2) := by
  refine ⟨?_, ?_, ?_, ?_⟩
  · intro s
    simp only [feedback_score_ok, Bool.and_eq_true, decide_eq_true_eq]
    omega
  · intro t rid p h
    unfold record_feedback
    simp [h]
  · intro t rid p s hp hs
    have hok : feedback_score_ok p.feedback_score = true := by
      rw [hp]
      simp only [feedback_score_ok, Bool.and_eq_true, decide_eq_true_eq]
      omega
    refine ⟨t.map fun r => if r.id = rid then applyFeedback p r else r, ?_, ?_⟩
    · unfold record_feedback
      simp [hok]
    · intro r hr hid
      rcases List.mem_map.mp hr with ⟨r0, _, rfl⟩
      by_cases h0 : r0.id = rid
      · simp [h0, applyFeedback, hp]
      · rw [if_neg h0] at hid ⊢
        exact absurd hid h0
  · intro t rid p1 p2 t1 h1
    have hok1 : feedback_score_ok p1.feedback_score = true := by
      by_contra hbad
      rw [Bool.not_eq_true] at hbad
      unfold record_feedback at h1
      simp [hbad] at h1
    have ht1 : t1 = t.map fun r => if r.id = rid then applyFeedback p1 r else r := by
      unfold record_feedback at h1
      simp [hok1] at h1
      exact h1.symm
    subst ht1
    unfold record_feedback
    by_cases hok2 : feedback_score_ok p2.feedback_score = true
    · simp only [hok2, if_true, List.map_map, Except.ok.injEq]
      apply List.map_congr_left
      intro r _
      by_cases h0 : r.id = rid
      · simp [Function.comp, h0, applyFeedback]
      · simp [Function.comp, h0]
    · rw [Bool.not_eq_true] at hok2
      simp [hok2]

/-- Witness for C3 at concrete inputs: score 2 is rejected; score 1 is
accepted and stored verbatim on recommendation 0; resubmitting with score -1
over the stored feedback equals a single submission with score -1. -/
theorem C3_feedback_contract_witness :
    record_feedback recTableEx 0 fbTwo = Except.error "invalid feedback_score" ∧
    (∃ t2, record_feedback recTableEx 0 fbOne = Except.ok t2 ∧
      ∀ r ∈ t2, r.id = 0 → r.feedback_score = some 1) ∧
    record_feedback
        (recTableEx.map fun r => if r.id = 0 then applyFeedback fbOne r else r)
        0 fbNeg =
      record_feedback recTableEx 0 fbNeg :=
  ⟨C3_feedback_contract.2.1 recTableEx 0 fbTwo (by rfl),
   C3_feedback_contract.2.2.1 recTableEx 0 fbOne 1 rfl (Or.inr (Or.inr rfl)),
   C3_feedback_contract.2.2.2 recTableEx 0 fbOne fbNeg _ (by rfl)⟩

/-- C7: whenever Phase B times out, returns a malformed response, or finds
the circuit breaker open, `generate_recommendation` returns the Phase-A
result verbatim with `debug_info.ai_reasoning_used = false`, and the emitted
`primary_action` is exactly the Phase-A top-ranked candidate. -/
theorem C7_phaseB_fallback :
    ∀ (w : Weights) (cs : List Candidate),
      generate_recommendation w cs (some PhaseBOutcome.timeout) =
        { primary_action := (phaseA w cs).1, alternatives := (phaseA w cs).2,
          ai_reasoning_used := false } ∧
      generate_recommendation w cs (some PhaseBOutcome.malformed) =
        { primary_action := (phaseA w cs).1, alternatives := (phaseA w cs).2,
          ai_reasoning_used := false } ∧
      generate_recommendation w cs (some PhaseBOutcome.breakerOpen) =
        { primary_action := (phaseA w cs).1, alternatives := (phaseA w cs).2,
          ai_reasoning_used := false } ∧
      (phaseA w cs).1 = (rankCandidates w cs).head? :=
  fun _ _ => ⟨rfl, rfl, rfl, rfl⟩

/-- C8: Phase-A scoring is deterministic — with Phase B disabled the emitted
primary action and alternatives ordering are a function of the context's
candidates and the weights alone, the ranking is the candidates sorted by
composite score (a permutation of the candidate set), and ties in the
composite score are broken by the earliest-created candidate. -/
theorem C8_phaseA_deterministic :
    ∀ (w : Weights) (cs : List Candidate),
      generate_recommendation w cs none = generate_recommendation w cs none ∧
      (generate_recommendation w cs none).primary_action =
        (rankCandidates w cs).head? ∧
      (generate_recommendation w cs none).alternatives =
        (rankCandidates w cs).tail.take 3 ∧
      List.Sorted (rankLE w) (rankCandidates w cs) ∧
      (rankCandidates w cs).Perm cs ∧
      (∀ a b : Candidate, rankLE w a b → composite w a = composite w b →
        a.created ≤ b.created) := by
  intro w cs
  refine ⟨rfl, rfl, rfl, ?_, ?_, ?_⟩
  · exact List.sorted_insertionSort _ _
  · exact List.perm_insertionSort _ _
  · intro a b hab heq
    rcases hab with h | ⟨_, h⟩
    · rw [heq] at h
      exact absurd h (lt_irrefl _)
    · exact h

/-- Witness for C8 at concrete inputs: under equal weights the candidates
`cEx` and `dEx` tie at composite score 1/4, and the ranking relation places
the earlier-created `cEx` (created 0) before `dEx` (created 1). -/
theorem C8_phaseA_deterministic_witness : cEx.created ≤ dEx.created :=
  (C8_phaseA_deterministic wEx [dEx, cEx]).2.2.2.2.2 cEx dEx
    (Or.inr ⟨by norm_num [composite, cEx, dEx, wEx], by decide⟩)
    (by norm_num [composite, cEx, dEx, wEx])

/-- C9: the subscribe handler validates before any write — a POST whose body
has no `email` or whose email does not contain the character `@` gets
HTTP 400 with error `Valid email required`, and the Redis state (per-email
keys and the `waitlist:emails` list) is returned unchanged. -/
theorem C9_reject_invalid_email :
    (∀ (st : WaitlistState) (ts : String),
        subscribePOST st none ts =
          ({ status := 400, body := RespBody.errorMsg "Valid email required" },
            st)) ∧
    (∀ (st : WaitlistState) (ts s : String), includesAt s = false →
        subscribePOST st (some s) ts =
          ({ status := 400, body := RespBody.errorMsg "Valid email required" },
            st)) := by
  constructor
  · intro st ts
    rfl
  · intro st ts s h
    simp [subscribePOST, h]

/-- Witness for C9 at concrete inputs: the email `nope` has no at-sign, so
subscribing it against the one-subscriber state is rejected with 400 and the
state comes back unchanged. -/
theorem C9_reject_invalid_email_witness :
    subscribePOST stEx (some "nope") "t1" =
      ({ status := 400, body := RespBody.errorMsg "Valid email required" },
        stEx) :=
  C9_reject_invalid_email.2 stEx "t1" "nope" (by decide)

/-! ## Lemmas on the waitlist route -/

theorem includesAt_ne_empty {s : String} (h : includesAt s = true) :
    s.data.isEmpty = false := by
  unfold includesAt at h
  cases hd : s.data with
  | nil => rw [hd] at h; simp at h
  | cons a l => simp [hd]

theorem redisGet_cons_self (kv : List (String × SubRecord))
    (ems : List String) (k : String) (v : SubRecord) :
    redisGet { kv := (k, v) :: kv, emails := ems } k = some v := by
  unfold redisGet
  simp

theorem redisGet_cons_isSome (kv : List (String × SubRecord))
    (ems ems2 : List String) (k k2 : String) (v : SubRecord)
    (h : (redisGet { kv := kv, emails := ems } k2).isSome = true) :
    (redisGet { kv := (k, v) :: kv, emails := ems2 } k2).isSome = true := by
  unfold redisGet at h ⊢
  cases hbeq : (k == k2) with
  | true => simp [List.find?_cons, hbeq]
  | false =>
    simp only [List.find?_cons, hbeq]
    exact h

/-- C10: subscribing is idempotent per email — when the per-email key is
already present, a repeated POST (with a well-formed email) answers 200
`Already subscribed` and performs no further Redis writes; and the handler
preserves the invariant that `waitlist:emails` holds no duplicates and every
listed email has its per-email key set, so sequential requests keep each
email at most once in the list. -/
theorem C10_subscribe_idempotent :
    (∀ (st : WaitlistState) (ts s : String) (r : SubRecord),
        includesAt s = true → redisGet st (waitlistKey s) = some r →
        subscribePOST st (some s) ts =
          ({ status := 200, body := RespBody.message "Already subscribed" },
            st)) ∧
    (∀ (st : WaitlistState) (em : Option String) (ts : String),
        waitlist_inv st → waitlist_inv (subscribePOST st em ts).2) := by
  constructor
  · intro st ts s r hat hget
    have hne := includesAt_ne_empty hat
    simp [subscribePOST, hne, hat, hget]
  · intro st em ts hinv
    obtain ⟨kv0, ems0⟩ := st
    match em with
    | none => exact hinv
    | some s =>
      by_cases hc : (s.data.isEmpty || !includesAt s) = true
      · simp only [subscribePOST, hc, if_true]
        exact hinv
      · simp only [subscribePOST, hc, if_false, Bool.false_eq_true]
        cases hget : redisGet { kv := kv0, emails := ems0 } (waitlistKey s) with
        | some r => exact hinv
        | none =>
          simp only [redisSet, redisLpush]
          constructor
          · refine List.nodup_cons.mpr ⟨?_, hinv.1⟩
            intro hmem
            have hsome := hinv.2 s hmem
            rw [hget] at hsome
            simp at hsome
          · intro e he
            rcases List.mem_cons.mp he with rfl | hmem
            · rw [redisGet_cons_self]
              rfl
            · exact redisGet_cons_isSome kv0 ems0 _ (waitlistKey s)
                (waitlistKey e) { email := s, subscribedAt := ts }
                (hinv.2 e hmem)

/-- Witness for C10 at concrete inputs: re-subscribing the already-present
email answers 200 `Already subscribed` with the state unchanged, and the
state after subscribing a fresh email still satisfies the
no-duplicate/key-present invariant. -/
theorem C10_subscribe_idempotent_witness :
    subscribePOST stEx (some "a@b.c") "t1" =
      ({ status := 200, body := RespBody.message "Already subscribed" },
        stEx) ∧
    waitlist_inv (subscribePOST stEx (some "x@y.z") "t2").2 :=
  ⟨C10_subscribe_idempotent.1 stEx "t1" "a@b.c"
      { email := "a@b.c", subscribedAt := "t0" } (by decide) (by decide),
   C10_subscribe_idempotent.2 stEx (some "x@y.z") "t2" (by decide)⟩
